import Mathlib

/-!
Verification of the WebAR surface-placement demo.

The development shallowly embeds the logic of `src/src/App.jsx`,
`src/src/ARButton.jsx` and the two earlier iterations of the same files
(`src/unnamed/part_000` holds the earlier ARButton together with the first
App iteration, `src/unnamed/part_001` holds the middle App iteration).

Numbers are rationals; host-platform calls (WebXR session requests,
getUserMedia, raycasting camera math) are modelled as explicit inputs or
function parameters, with `Except` for calls that can reject.
-/

namespace WebAR

/-- Three rational coordinates, modelling THREE.Vector3 and the position of an
XRRigidTransform. -/
structure Vec3 where
  x : ℚ
  y : ℚ
  z : ℚ
deriving DecidableEq

/-- A quaternion, modelling THREE.Quaternion and the orientation of an
XRRigidTransform. -/
@[ext]
structure Quat where
  x : ℚ
  y : ℚ
  z : ℚ
  w : ℚ
deriving DecidableEq

/-- Scene-graph nodes created by App.jsx. A user model carries the id of the
gltf scene object produced by the loader. -/
inductive Obj where
  | hemiLight
  | dirLight
  | reticle
  | controller
  | ground
  | model (id : Nat)
deriving DecidableEq

/-- Whether a scene node is a user-loaded model. -/
def isModelObj : Obj → Bool
  | .model _ => true
  | _ => false

/-- Number of user-loaded models in a scene. -/
def modelCount (scene : List Obj) : Nat :=
  (scene.filter isModelObj).length

/-- The React state written by handleUpload. -/
structure AppState where
  modelUrl : Option String
  sceneReady : Bool
deriving DecidableEq

/-- The endsWith check of JS strings, on the character lists: case sensitive,
exact suffix comparison. -/
def jsEndsWith (s pat : String) : Bool :=
  pat.toList.isSuffixOf s.toList

/-- handleUpload (App.jsx lines 326-332): reads e.target.files[0] and, when a
file was selected and its name ends with ".glb", stores an object URL for it
and marks the scene ready; otherwise it does nothing.  `files` holds the file
names of the selection, `objectURL` the URL the host would create for the
selected file.  The Bool records whether any user feedback is shown; the
handler contains no alert or message call on any path. -/
def handleUpload (st : AppState) (files : List String) (objectURL : String) :
    AppState × Bool :=
  match files.head? with
  | some name =>
      if jsEndsWith name ".glb" then (⟨some objectURL, true⟩, false) else (st, false)
  | none => (st, false)

/-- The identity quaternion carried by a freshly created Object3D. -/
def identQuat : Quat := ⟨0, 0, 0, 1⟩

/-- The scene node built for a loaded model. -/
structure ModelNode where
  id : Nat
  position : Vec3
  quaternion : Quat
  scaleFactor : Vec3
deriving DecidableEq

/-- The scene list together with the `model` variable of the App closure. -/
structure SceneState where
  scene : List Obj
  model : Option ModelNode
deriving DecidableEq

/-- The load-success callback of placeModel (App.jsx lines 235-268; the
part_001 iteration at lines 222-247 is the same without the orientation
parameter): when a model URL is set, remove the previous model from the scene,
scale the freshly loaded gltf scene (identified by `gltfId`) to 0.5, copy the
requested position, copy the hit orientation when one was passed, add 0.01 to
the y coordinate, and add the node to the scene. -/
def placeModel (modelUrl : Option String) (st : SceneState) (gltfId : Nat)
    (position : Vec3) (orientation : Option Quat) : SceneState :=
  if modelUrl.isSome then
    let scene1 :=
      match st.model with
      | some m => st.scene.erase (Obj.model m.id)
      | none => st.scene
    let quat :=
      match orientation with
      | some o => o
      | none => identQuat
    let node : ModelNode :=
      { id := gltfId
        position := ⟨position.x, position.y + 1 / 100, position.z⟩
        quaternion := quat
        scaleFactor := ⟨1 / 2, 1 / 2, 1 / 2⟩ }
    { scene := scene1 ++ [Obj.model gltfId], model := some node }
  else st

/-- Invariant tying the `model` variable to the scene: the scene has no
duplicate nodes and every model node in it is the tracked one. -/
def SceneInv (st : SceneState) : Prop :=
  st.scene.Nodup ∧ ∀ i, Obj.model i ∈ st.scene → ∃ m, st.model = some m ∧ m.id = i

/-- A click or touchend event as read by onCanvasClick. -/
structure PtrEvent where
  isTouchEnd : Bool
  changedTouches : List (ℚ × ℚ)
  clientX : ℚ
  clientY : ℚ

/-- The bounding client rect of the canvas. -/
structure DomRect where
  left : ℚ
  top : ℚ
  width : ℚ
  height : ℚ

/-- Client coordinates chosen by onCanvasClick (App.jsx lines 142-150): the
first changed touch of a touchend event, the mouse coordinates otherwise. -/
def eventClientCoords (ev : PtrEvent) : ℚ × ℚ :=
  if ev.isTouchEnd then
    match ev.changedTouches.head? with
    | some c => c
    | none => (ev.clientX, ev.clientY)
  else (ev.clientX, ev.clientY)

/-- Normalized device coordinates computed by onCanvasClick
(App.jsx lines 152-153). -/
def mouseNDC (c : ℚ × ℚ) (rect : DomRect) : ℚ × ℚ :=
  (((c.1 - rect.left) / rect.width) * 2 - 1,
   -((c.2 - rect.top) / rect.height) * 2 + 1)

/-- A ray with origin and direction, modelling THREE.Raycaster.ray. -/
structure Ray where
  ox : ℚ
  oy : ℚ
  oz : ℚ
  dx : ℚ
  dy : ℚ
  dz : ℚ

/-- Raycaster.intersectObject against the invisible ground mesh of
onCanvasClick: PlaneGeometry(100, 100) rotated by -pi/2 about x (front normal
pointing up), positioned at the origin, front side only (the MeshBasicMaterial
default).  The ray hits when it points downward, the plane parameter is
non-negative and the hit point lies within the 100 by 100 extent; the hit
point is the first (and only) intersection. -/
def intersectGround (r : Ray) : Option Vec3 :=
  if r.dy < 0 then
    let t := -r.oy / r.dy
    if 0 ≤ t then
      let p : Vec3 := ⟨r.ox + t * r.dx, r.oy + t * r.dy, r.oz + t * r.dz⟩
      if -50 ≤ p.x ∧ p.x ≤ 50 ∧ -50 ≤ p.z ∧ p.z ≤ 50 then some p else none
    else none
  else none

/-- onCanvasClick (App.jsx lines 134-173).  `setFromCamera` stands for
Raycaster.setFromCamera, producing the camera ray through the given normalized
device coordinates.  Returns the scene as the handler leaves it and the
position passed to placeModel, if any; in XR presentation the handler returns
immediately. -/
def onCanvasClick (isPresenting : Bool) (ev : PtrEvent) (rect : DomRect)
    (setFromCamera : ℚ × ℚ → Ray) (scene : List Obj) :
    List Obj × Option Vec3 :=
  if isPresenting then (scene, none)
  else
    let m := mouseNDC (eventClientCoords ev) rect
    let scene1 := scene ++ [Obj.ground]
    let hit := intersectGround (setFromCamera m)
    (scene1.erase Obj.ground, hit)

/-- Facing-mode preference of a getUserMedia request. -/
inductive Facing where
  | exactEnvironment
  | preferEnvironment
deriving DecidableEq

/-- The video constraints of a getUserMedia request. -/
structure CameraConstraints where
  facing : Facing
  idealWidth : Nat
  idealHeight : Nat
deriving DecidableEq

/-- The first getUserMedia request of the camera fallback
(ARButton.jsx lines 55-61): facingMode exact environment, ideal 1920 by 1080. -/
def exactBackCamera : CameraConstraints := ⟨Facing.exactEnvironment, 1920, 1080⟩

/-- The retry getUserMedia request of the camera fallback
(ARButton.jsx lines 68-74): facingMode preferred environment, ideal
1280 by 720. -/
def preferredBackCamera : CameraConstraints := ⟨Facing.preferEnvironment, 1280, 720⟩

/-- The host outcomes observable during one click of the AR button: whether
navigator.xr exists, the isSessionSupported answer, the combined
requestSession/setSession outcome, and the two getUserMedia outcomes (stream
ids on success).  Errors carry the DOMException name or message. -/
structure HostEnv where
  hasXR : Bool
  arSupported : Except String Bool
  sessionStart : Except String Unit
  cameraExact : Except String Nat
  cameraPreferred : Except String Nat

/-- The video element attached by the camera fallback. -/
structure VideoLayer where
  zIndex : Int
  widthVW : Nat
  heightVH : Nat
  positionFixed : Bool
deriving DecidableEq

/-- What one click in the "START AR" state did: the button label afterwards,
whether an alert was shown (and its text), the attached background video if
any, and the getUserMedia requests issued, in order. -/
structure ClickResult where
  label : String
  alerted : Bool
  alertText : Option String
  video : Option VideoLayer
  cameraCalls : List CameraConstraints
deriving DecidableEq

/-- The user-facing message built in the outer catch of the final ARButton
(ARButton.jsx lines 102-112), keyed on the error name. -/
def cameraErrorMessage (name : String) : String :=
  "Failed to access camera. " ++
    (if name = "NotAllowedError" then "Please allow camera permissions and try again."
     else if name = "NotFoundError" then "No camera found on this device."
     else if name = "NotSupportedError" then "Camera not supported in this browser."
     else "Please check camera permissions.")

/-- The camera fallback of the final createARButton (ARButton.jsx lines
51-115): the exact back camera first, on rejection the preferred constraints,
and on rejection of both the outer catch with an alert; on success a
full-screen fixed video element with z-index -1 is attached behind the scene
and the label becomes "STOP AR". -/
def cameraFallback (env : HostEnv) : ClickResult :=
  match env.cameraExact with
  | .ok _ =>
      { label := "STOP AR", alerted := false, alertText := none
        video := some ⟨-1, 100, 100, true⟩
        cameraCalls := [exactBackCamera] }
  | .error _ =>
      match env.cameraPreferred with
      | .ok _ =>
          { label := "STOP AR", alerted := false, alertText := none
            video := some ⟨-1, 100, 100, true⟩
            cameraCalls := [exactBackCamera, preferredBackCamera] }
      | .error e =>
          { label := "START AR", alerted := true
            alertText := some (cameraErrorMessage e)
            video := none
            cameraCalls := [exactBackCamera, preferredBackCamera] }

/-- The click handler of the final createARButton (ARButton.jsx lines 20-115)
in the "START AR" state: try WebXR when available (any failure inside that
attempt is caught and falls through to the camera fallback), otherwise run the
camera fallback. -/
def startARClick (env : HostEnv) : ClickResult :=
  if env.hasXR then
    match env.arSupported with
    | .ok true =>
        match env.sessionStart with
        | .ok _ =>
            { label := "STOP AR", alerted := false, alertText := none
              video := none, cameraCalls := [] }
        | .error _ => cameraFallback env
    | .ok false => cameraFallback env
    | .error _ => cameraFallback env
  else cameraFallback env

/-- The click handler of the earlier createARButton (src/unnamed/part_000
lines 26-67) in the "START AR" state: no camera fallback; every rejection
shows an alert and the label stays "START AR". -/
def startARClickV0 (env : HostEnv) : ClickResult :=
  if env.hasXR then
    match env.arSupported with
    | .ok true =>
        match env.sessionStart with
        | .ok _ =>
            { label := "STOP AR", alerted := false, alertText := none
              video := none, cameraCalls := [] }
        | .error e =>
            { label := "START AR", alerted := true
              alertText := some ("Failed to start AR: " ++ e)
              video := none, cameraCalls := [] }
    | .ok false =>
        { label := "START AR", alerted := true
          alertText := some "AR is not supported on this device"
          video := none, cameraCalls := [] }
    | .error e =>
        { label := "START AR", alerted := true
          alertText := some ("Failed to start AR: " ++ e)
          video := none, cameraCalls := [] }
  else
    { label := "START AR", alerted := true
      alertText := some "WebXR is not supported on this device"
      video := none, cameraCalls := [] }

/-- The WebXR start path of a click succeeded: navigator.xr exists,
immersive-ar is supported, and the session request and setup resolved. -/
def xrStartSuccess (env : HostEnv) : Prop :=
  env.hasXR = true ∧ env.arSupported = .ok true ∧ env.sessionStart = .ok ()

/-- The camera fallback would obtain a stream: the exact request resolves, or
the preferred retry does. -/
def cameraSuccess (env : HostEnv) : Prop :=
  (∃ s, env.cameraExact = .ok s) ∨ (∃ s, env.cameraPreferred = .ok s)

/-- The kind of an XRReferenceSpace, as named in requestReferenceSpace. -/
inductive RefKind where
  | viewer
  | localRef
deriving DecidableEq

/-- An XRReferenceSpace returned by the session. -/
structure RefSpace where
  kind : RefKind
deriving DecidableEq

/-- An XRHitTestSource, remembering the reference space it was requested
for. -/
structure HitTestSource where
  space : RefSpace
deriving DecidableEq

/-- A hit pose, as returned by XRHitTestResult.getPose for some reference
space: the position and orientation of its transform. -/
structure XRPose where
  position : Vec3
  orientation : Quat
deriving DecidableEq

/-- An XRHitTestResult: getPose may yield a pose, per reference-space kind. -/
structure XRHitResult where
  poseViewer : Option XRPose
  poseLocal : Option XRPose
deriving DecidableEq

/-- XRHitTestResult.getPose for a space of the given kind. -/
def XRHitResult.getPose (h : XRHitResult) : RefKind → Option XRPose
  | .viewer => h.poseViewer
  | .localRef => h.poseLocal

/-- The frame data read by render: frame.getHitTestResults on the current hit
test source. -/
structure XRFrame where
  hitTestResults : List XRHitResult
deriving DecidableEq

/-- The closure variables of the final App.jsx touched by the XR code paths,
together with the hitResult/hitPose fields stashed on renderer.xr and the
reticle state. `reticlePose` is the pose whose transform matrix the reticle
matrix was last set from. -/
structure XRGlobals where
  hitTestSource : Option HitTestSource
  hitTestSourceRequested : Bool
  localReferenceSpace : Option RefSpace
  viewerReferenceSpace : Option RefSpace
  hitResult : Option XRHitResult
  hitPose : Option XRPose
  reticleVisible : Bool
  reticlePose : Option XRPose
deriving DecidableEq

/-- The session interface used at session start: requestReferenceSpace and
requestHitTestSource, each allowed to reject. -/
structure XRSession where
  refSpace : RefKind → Except String RefSpace
  hitTestSrc : RefSpace → Except String HitTestSource

/-- A session answers honestly: a granted reference space is of the requested
kind, and a granted hit-test source is for the space passed to it. -/
def XRSession.WF (s : XRSession) : Prop :=
  (∀ k sp, s.refSpace k = .ok sp → sp.kind = k) ∧
  (∀ sp src, s.hitTestSrc sp = .ok src → src.space = sp)

/-- onXRSessionStart of the final App.jsx (lines 88-114): reset the hit-test
state, request the "local" space, then the "viewer" space, then a hit-test
source for the viewer space; a rejection anywhere is caught, keeping the
assignments already made. -/
def onXRSessionStart (s : XRSession) (g : XRGlobals) : XRGlobals :=
  let g0 := { g with hitTestSourceRequested := false, hitTestSource := none }
  match s.refSpace RefKind.localRef with
  | .error _ => g0
  | .ok lsp =>
      let g1 := { g0 with localReferenceSpace := some lsp }
      match s.refSpace RefKind.viewer with
      | .error _ => g1
      | .ok vsp =>
          let g2 := { g1 with viewerReferenceSpace := some vsp }
          match s.hitTestSrc vsp with
          | .error _ => g2
          | .ok src =>
              { g2 with hitTestSource := some src, hitTestSourceRequested := true }

/-- The XR branch of render in the final App.jsx (lines 175-224), entered when
a frame is present and the session is presenting: when the hit-test source and
the local reference space both exist, read the hit results; on a non-empty
list take the first hit and its pose in the local space; a valid pose is
stashed and shown by the reticle, an empty list hides the reticle and clears
the stash, and a null pose leaves everything as it was; without source or
space the reticle is hidden. -/
def render (g : XRGlobals) (frame : XRFrame) : XRGlobals :=
  match g.hitTestSource, g.localReferenceSpace with
  | some _, some sp =>
      match frame.hitTestResults with
      | [] => { g with reticleVisible := false, hitResult := none, hitPose := none }
      | hit :: _ =>
          match hit.getPose sp.kind with
          | some pose =>
              { g with hitResult := some hit, hitPose := some pose,
                       reticleVisible := true, reticlePose := some pose }
          | none => g
  | _, _ => { g with reticleVisible := false }

/-- The closure variables of the part_001 App iteration touched by its XR code
paths. -/
structure XRGlobalsV1 where
  hitTestSource : Option HitTestSource
  hitTestSourceRequested : Bool
  localReferenceSpace : Option RefSpace
  hitResult : Option XRHitResult
  reticleVisible : Bool
  reticlePose : Option XRPose
deriving DecidableEq

/-- onXRSessionStart of the part_001 iteration (lines 86-99): reset the
hit-test state and request only the "local" reference space. -/
def onXRSessionStartV1 (s : XRSession) (g : XRGlobalsV1) : XRGlobalsV1 :=
  let g0 := { g with hitTestSourceRequested := false, hitTestSource := none }
  match s.refSpace RefKind.localRef with
  | .error _ => g0
  | .ok lsp => { g0 with localReferenceSpace := some lsp }

/-- The XR branch of render in the part_001 iteration (lines 156-211): when no
hit-test source has been requested yet and the local space exists, mark it
requested and ask the session for a source in the local space (the source
itself arrives asynchronously; the second component is the space passed to
that request, when it fires).  Then, with a source at hand, read the hit
results and the pose of the first hit in the local space, as in the final
iteration but without a stored hitPose. -/
def renderV1 (g : XRGlobalsV1) (frame : XRFrame) :
    XRGlobalsV1 × Option RefSpace :=
  let fire := !g.hitTestSourceRequested && g.localReferenceSpace.isSome
  let req : Option RefSpace := if fire then g.localReferenceSpace else none
  let g0 := if fire then { g with hitTestSourceRequested := true } else g
  match g0.hitTestSource with
  | none => ({ g0 with reticleVisible := false }, req)
  | some _ =>
      match frame.hitTestResults with
      | [] => ({ g0 with reticleVisible := false, hitResult := none }, req)
      | hit :: _ =>
          match g0.localReferenceSpace with
          | none => (g0, req)
          | some sp =>
              match hit.getPose sp.kind with
              | some pose =>
                  ({ g0 with hitResult := some hit, reticleVisible := true,
                             reticlePose := some pose }, req)
              | none => (g0, req)

/-- A session whose requests all resolve, answering honestly. -/
def sessionOk : XRSession :=
  { refSpace := fun k => .ok ⟨k⟩
    hitTestSrc := fun sp => .ok ⟨sp⟩ }

/-- A fresh XRGlobals value, before any session started. -/
def initGlobals : XRGlobals :=
  { hitTestSource := none, hitTestSourceRequested := false
    localReferenceSpace := none, viewerReferenceSpace := none
    hitResult := none, hitPose := none
    reticleVisible := false, reticlePose := none }

/-- A fresh XRGlobalsV1 value, before any session started. -/
def initGlobalsV1 : XRGlobalsV1 :=
  { hitTestSource := none, hitTestSourceRequested := false
    localReferenceSpace := none
    hitResult := none, reticleVisible := false, reticlePose := none }

/-- Math.sqrt as used by the decompose code, modelled by the exact rational
square root: every argument the code derives from a rigid transform is a
perfect rational square, and on those Rat.sqrt returns the exact non-negative
root, agreeing with Math.sqrt. -/
def mathSqrt (q : ℚ) : ℚ := Rat.sqrt q

/-- A 4 by 4 matrix in the column-major element order of THREE.Matrix4 and of
the matrix attribute of XRRigidTransform: e0..e3 is the first column. -/
structure Mat4 where
  e0 : ℚ
  e1 : ℚ
  e2 : ℚ
  e3 : ℚ
  e4 : ℚ
  e5 : ℚ
  e6 : ℚ
  e7 : ℚ
  e8 : ℚ
  e9 : ℚ
  e10 : ℚ
  e11 : ℚ
  e12 : ℚ
  e13 : ℚ
  e14 : ℚ
  e15 : ℚ
deriving DecidableEq

/-- The matrix attribute of an XRRigidTransform with the given position and
orientation, per the WebXR spec: the homogeneous rotation-then-translation
matrix, identical to THREE.Matrix4.compose with unit scale (this is the array
part_000 feeds to Matrix4.fromArray). -/
def composeRigid (p : Vec3) (q : Quat) : Mat4 :=
  let x := q.x
  let y := q.y
  let z := q.z
  let w := q.w
  { e0 := 1 - (y * (y + y) + z * (z + z))
    e1 := x * (y + y) + w * (z + z)
    e2 := x * (z + z) - w * (y + y)
    e3 := 0
    e4 := x * (y + y) - w * (z + z)
    e5 := 1 - (x * (x + x) + z * (z + z))
    e6 := y * (z + z) + w * (x + x)
    e7 := 0
    e8 := x * (z + z) + w * (y + y)
    e9 := y * (z + z) - w * (x + x)
    e10 := 1 - (x * (x + x) + y * (y + y))
    e11 := 0
    e12 := p.x
    e13 := p.y
    e14 := p.z
    e15 := 1 }

/-- THREE.Matrix4.determinant, the expansion along the fourth row as written in
the three.js source (n11 = e0, n12 = e4, n13 = e8, n14 = e12, n21 = e1, and so
on column-major). -/
def Mat4.determinant (m : Mat4) : ℚ :=
  m.e3 *
      (m.e12 * m.e9 * m.e6
        - m.e8 * m.e13 * m.e6
        - m.e12 * m.e5 * m.e10
        + m.e4 * m.e13 * m.e10
        + m.e8 * m.e5 * m.e14
        - m.e4 * m.e9 * m.e14) +
    m.e7 *
      (m.e0 * m.e9 * m.e14
        - m.e0 * m.e13 * m.e10
        + m.e12 * m.e1 * m.e10
        - m.e8 * m.e1 * m.e14
        + m.e8 * m.e13 * m.e2
        - m.e12 * m.e9 * m.e2) +
    m.e11 *
      (m.e0 * m.e13 * m.e6
        - m.e0 * m.e5 * m.e14
        - m.e12 * m.e1 * m.e6
        + m.e4 * m.e1 * m.e14
        + m.e12 * m.e5 * m.e2
        - m.e4 * m.e13 * m.e2) +
    m.e15 *
      (-m.e8 * m.e5 * m.e2
        - m.e0 * m.e9 * m.e6
        + m.e0 * m.e5 * m.e10
        + m.e8 * m.e1 * m.e6
        - m.e4 * m.e1 * m.e10
        + m.e4 * m.e9 * m.e2)

/-- THREE.Vector3.length of a column. -/
def vecLength3 (a b c : ℚ) : ℚ := mathSqrt (a * a + b * b + c * c)

/-- The length of the first column of a matrix, negated when the determinant
is negative, exactly as Matrix4.decompose computes sx. -/
def Mat4.scaleSignedX (m : Mat4) : ℚ :=
  if m.determinant < 0 then -vecLength3 m.e0 m.e1 m.e2
  else vecLength3 m.e0 m.e1 m.e2

/-- The sy of Matrix4.decompose: the length of the second column. -/
def Mat4.scaleY (m : Mat4) : ℚ := vecLength3 m.e4 m.e5 m.e6

/-- The sz of Matrix4.decompose: the length of the third column. -/
def Mat4.scaleZ (m : Mat4) : ℚ := vecLength3 m.e8 m.e9 m.e10

/-- THREE.Quaternion.setFromRotationMatrix, on the nine rotation entries
(m11 m12 m13 / m21 m22 m23 / m31 m32 m33 in the row-column naming of the
three.js source): the trace branch and the three diagonal-pivot branches. -/
def setFromRotationMatrix (m11 m12 m13 m21 m22 m23 m31 m32 m33 : ℚ) : Quat :=
  if m11 + m22 + m33 > 0 then
    ⟨(m32 - m23) * ((1 / 2) / mathSqrt (m11 + m22 + m33 + 1)),
     (m13 - m31) * ((1 / 2) / mathSqrt (m11 + m22 + m33 + 1)),
     (m21 - m12) * ((1 / 2) / mathSqrt (m11 + m22 + m33 + 1)),
     (1 / 4) / ((1 / 2) / mathSqrt (m11 + m22 + m33 + 1))⟩
  else if m11 > m22 ∧ m11 > m33 then
    ⟨(1 / 4) * (2 * mathSqrt (1 + m11 - m22 - m33)),
     (m12 + m21) / (2 * mathSqrt (1 + m11 - m22 - m33)),
     (m13 + m31) / (2 * mathSqrt (1 + m11 - m22 - m33)),
     (m32 - m23) / (2 * mathSqrt (1 + m11 - m22 - m33))⟩
  else if m22 > m33 then
    ⟨(m12 + m21) / (2 * mathSqrt (1 + m22 - m11 - m33)),
     (1 / 4) * (2 * mathSqrt (1 + m22 - m11 - m33)),
     (m23 + m32) / (2 * mathSqrt (1 + m22 - m11 - m33)),
     (m13 - m31) / (2 * mathSqrt (1 + m22 - m11 - m33))⟩
  else
    ⟨(m13 + m31) / (2 * mathSqrt (1 + m33 - m11 - m22)),
     (m23 + m32) / (2 * mathSqrt (1 + m33 - m11 - m22)),
     (1 / 4) * (2 * mathSqrt (1 + m33 - m11 - m22)),
     (m21 - m12) / (2 * mathSqrt (1 + m33 - m11 - m22))⟩

/-- THREE.Matrix4.decompose: the position is read from elements 12..14, each
rotation column is divided by its scale, and the quaternion is recovered by
setFromRotationMatrix; returns (position, quaternion, scale). -/
def Mat4.decompose (m : Mat4) : Vec3 × Quat × Vec3 :=
  (⟨m.e12, m.e13, m.e14⟩,
   setFromRotationMatrix
     (m.e0 * (1 / m.scaleSignedX)) (m.e4 * (1 / m.scaleY)) (m.e8 * (1 / m.scaleZ))
     (m.e1 * (1 / m.scaleSignedX)) (m.e5 * (1 / m.scaleY)) (m.e9 * (1 / m.scaleZ))
     (m.e2 * (1 / m.scaleSignedX)) (m.e6 * (1 / m.scaleY)) (m.e10 * (1 / m.scaleZ)),
   ⟨m.scaleSignedX, m.scaleY, m.scaleZ⟩)

/-- The placement position computed by onSelect in part_000 (lines 261-283):
build a Matrix4 from the hit-pose transform matrix and decompose it. -/
def onSelectV0Position (pose : XRPose) : Vec3 :=
  (Mat4.decompose (composeRigid pose.position pose.orientation)).1

/-- The quaternion computed by the same decompose call in part_000. -/
def onSelectV0Quaternion (pose : XRPose) : Quat :=
  (Mat4.decompose (composeRigid pose.position pose.orientation)).2.1

/-- The placement position read by onSelect in the final App.jsx (lines
270-306): transform.position, component by component. -/
def onSelectPosition (pose : XRPose) : Vec3 :=
  ⟨pose.position.x, pose.position.y, pose.position.z⟩

/-- The orientation read by onSelect in the final App.jsx: transform.orientation,
component by component. -/
def onSelectOrientation (pose : XRPose) : Quat :=
  ⟨pose.orientation.x, pose.orientation.y, pose.orientation.z, pose.orientation.w⟩

/-- The orientation of a rigid transform is a unit quaternion (the WebXR spec
normalizes XRRigidTransform orientations). -/
def isUnitQuat (q : Quat) : Prop :=
  q.x ^ 2 + q.y ^ 2 + q.z ^ 2 + q.w ^ 2 = 1

/-- A mouse click at the canvas origin. -/
def clickEv : PtrEvent := ⟨false, [], 0, 0⟩

/-- A unit canvas rect. -/
def unitRect : DomRect := ⟨0, 0, 1, 1⟩

/-- A camera whose rays all point straight down from height 1. -/
def downRay : ℚ × ℚ → Ray := fun _ => ⟨0, 1, 0, 0, -1, 0⟩

/-- A host without WebXR whose exact camera request rejects and whose preferred
retry resolves. -/
def hostNoXR : HostEnv :=
  ⟨false, Except.ok false, Except.ok (), Except.error "NotReadableError",
    Except.ok 2⟩

/-- A pose at (1, 2, 3) with the identity orientation. -/
def pose123 : XRPose := ⟨⟨1, 2, 3⟩, identQuat⟩

/-- A hit result with a valid pose in the local space only. -/
def hitLocal : XRHitResult := ⟨none, some pose123⟩

/-- Globals holding a hit-test source and a local reference space. -/
def readyGlobals : XRGlobals :=
  { hitTestSource := some ⟨⟨RefKind.viewer⟩⟩
    hitTestSourceRequested := true
    localReferenceSpace := some ⟨RefKind.localRef⟩
    viewerReferenceSpace := some ⟨RefKind.viewer⟩
    hitResult := none, hitPose := none
    reticleVisible := false, reticlePose := none }

/-- A scene holding a light and one placed model, tracked by the state. -/
def trackedScene : SceneState :=
  ⟨[Obj.hemiLight, Obj.model 5],
    some ⟨5, ⟨0, 0, 0⟩, identQuat, ⟨1 / 2, 1 / 2, 1 / 2⟩⟩⟩

/-- C10: handleUpload updates the application state exactly when a file was
selected whose name ends with the lowercase suffix ".glb" (in which case the
model URL is stored and the scene marked ready); an empty selection, or a name
ending ".GLB" or ".gltf", leaves the state unchanged; no path shows any user
feedback. -/
theorem handleUpload_spec (st : AppState) (u : String) :
    (∀ name rest, handleUpload st (name :: rest) u =
      ((if jsEndsWith name ".glb" then ⟨some u, true⟩ else st : AppState), false)) ∧
    handleUpload st [] u = (st, false) ∧
    (∀ rest, handleUpload st ("model.GLB" :: rest) u = (st, false)) ∧
    (∀ rest, handleUpload st ("model.gltf" :: rest) u = (st, false)) := by
  refine ⟨fun name rest => ?_, rfl, fun rest => ?_, fun rest => ?_⟩
  · by_cases h : jsEndsWith name ".glb" <;> simp [handleUpload, h]
  · simp [handleUpload, show jsEndsWith "model.GLB" ".glb" = false from by decide]
  · simp [handleUpload, show jsEndsWith "model.gltf" ".glb" = false from by decide]

/-- C1 counterexample: placing at the origin puts the loaded model at
(0, 1/100, 0), not at the position passed to placeModel. -/
theorem placeModel_offset_counterexample :
    (placeModel (some "blob:model-url") ⟨[], none⟩ 0 ⟨0, 0, 0⟩ none).model.map
        ModelNode.position = some ⟨0, 1 / 100, 0⟩ ∧
      (some (⟨0, 1 / 100, 0⟩ : Vec3) ≠ some (⟨0, 0, 0⟩ : Vec3)) := by
  constructor
  · norm_num [placeModel]
  · simp only [ne_eq, Option.some.injEq, Vec3.mk.injEq]
    norm_num

/-- C1 amended: a successful placeModel load (in XR mode and the fallback mode
alike, both of which call this one function) adds the model to the scene at
the position passed to it shifted by +0.01 along y, the anti-z-fighting
offset; the x and z coordinates are the passed ones. -/
theorem placeModel_position (u : String) (st : SceneState) (g : Nat)
    (p : Vec3) (o : Option Quat) :
    (placeModel (some u) st g p o).model.map ModelNode.position =
        some ⟨p.x, p.y + 1 / 100, p.z⟩ ∧
      Obj.model g ∈ (placeModel (some u) st g p o).scene := by
  constructor <;> simp [placeModel]

/-- Any point returned by intersectGround lies on the ray at a non-negative
parameter, on the plane y = 0, within the 100 by 100 extent. -/
theorem intersectGround_spec (r : Ray) (p : Vec3)
    (h : intersectGround r = some p) :
    ∃ t : ℚ, 0 ≤ t ∧ p.x = r.ox + t * r.dx ∧ p.y = r.oy + t * r.dy ∧
      p.z = r.oz + t * r.dz ∧ p.y = 0 ∧
      -50 ≤ p.x ∧ p.x ≤ 50 ∧ -50 ≤ p.z ∧ p.z ≤ 50 := by
  unfold intersectGround at h
  dsimp only at h
  split_ifs at h with h1 h2 h3
  · obtain ⟨hx, hx2, hz, hz2⟩ := h3
    cases h
    refine ⟨-r.oy / r.dy, h2, rfl, rfl, rfl, ?_, hx, hx2, hz, hz2⟩
    have hdy : r.dy ≠ 0 := ne_of_lt h1
    field_simp

/-- C8: the fallback canvas click handler leaves the scene node set unchanged:
the temporary invisible ground mesh it adds is removed before it returns, and
no light, reticle or other node is touched (the possibly placed model is added
later by the asynchronous loader callback, modelled separately by
placeModel). -/
theorem onCanvasClick_scene (isPresenting : Bool) (ev : PtrEvent)
    (rect : DomRect) (f : ℚ × ℚ → Ray) (scene : List Obj)
    (hg : Obj.ground ∉ scene) :
    (onCanvasClick isPresenting ev rect f scene).1 = scene := by
  unfold onCanvasClick
  by_cases hp : isPresenting
  · simp [hp]
  · simp only [hp, if_false, Bool.false_eq_true]
    rw [List.erase_append_right _ hg]
    simp

/-- C8 witness: clicking over a scene holding the reticle and a light returns
exactly that scene. -/
theorem onCanvasClick_scene_witness :
    (onCanvasClick false clickEv unitRect downRay [Obj.reticle, Obj.hemiLight]).1 =
      [Obj.reticle, Obj.hemiLight] :=
  onCanvasClick_scene false clickEv unitRect downRay [Obj.reticle, Obj.hemiLight]
    (by decide)

/-- C5: in the non-XR fallback mode the canvas click handler converts the event
coordinates to normalized device coordinates, casts the camera ray against the
invisible 100 by 100 ground plane at y = 0 and hands the first intersection
point to placeModel; with no intersection nothing is placed, and while an XR
session is presenting the handler returns immediately without placing. -/
theorem onCanvasClick_placement (ev : PtrEvent) (rect : DomRect)
    (f : ℚ × ℚ → Ray) (scene : List Obj) :
    onCanvasClick true ev rect f scene = (scene, none) ∧
    (onCanvasClick false ev rect f scene).2 =
      intersectGround (f (mouseNDC (eventClientCoords ev) rect)) ∧
    (∀ p, (onCanvasClick false ev rect f scene).2 = some p →
      ∃ t : ℚ, 0 ≤ t ∧
        p.x = (f (mouseNDC (eventClientCoords ev) rect)).ox +
            t * (f (mouseNDC (eventClientCoords ev) rect)).dx ∧
        p.y = (f (mouseNDC (eventClientCoords ev) rect)).oy +
            t * (f (mouseNDC (eventClientCoords ev) rect)).dy ∧
        p.z = (f (mouseNDC (eventClientCoords ev) rect)).oz +
            t * (f (mouseNDC (eventClientCoords ev) rect)).dz ∧
        p.y = 0 ∧ -50 ≤ p.x ∧ p.x ≤ 50 ∧ -50 ≤ p.z ∧ p.z ≤ 50) := by
  refine ⟨rfl, rfl, fun p hp => intersectGround_spec _ p ?_⟩
  exact hp

/-- C5 witness: a straight-down camera ray places the model at the origin,
which indeed lies on that ray, on the ground plane, inside its extent. -/
theorem onCanvasClick_placement_witness :
    ∃ t : ℚ, 0 ≤ t ∧
      (Vec3.mk 0 0 0).x = (downRay (mouseNDC (eventClientCoords clickEv) unitRect)).ox +
          t * (downRay (mouseNDC (eventClientCoords clickEv) unitRect)).dx ∧
      (Vec3.mk 0 0 0).y = (downRay (mouseNDC (eventClientCoords clickEv) unitRect)).oy +
          t * (downRay (mouseNDC (eventClientCoords clickEv) unitRect)).dy ∧
      (Vec3.mk 0 0 0).z = (downRay (mouseNDC (eventClientCoords clickEv) unitRect)).oz +
          t * (downRay (mouseNDC (eventClientCoords clickEv) unitRect)).dz ∧
      (Vec3.mk 0 0 0).y = 0 ∧ -50 ≤ (Vec3.mk 0 0 0).x ∧ (Vec3.mk 0 0 0).x ≤ 50 ∧
      -50 ≤ (Vec3.mk 0 0 0).z ∧ (Vec3.mk 0 0 0).z ≤ 50 :=
  (onCanvasClick_placement clickEv unitRect downRay []).2.2 ⟨0, 0, 0⟩
    (by norm_num [onCanvasClick, intersectGround, downRay, mouseNDC,
      eventClientCoords, clickEv, unitRect])

/-- C3 counterexample: in the final ARButton, a rejected immersive-ar session
request with a working camera falls back silently: no alert is shown and the
label becomes "STOP AR", against the claim that a rejected platform start call
always alerts and leaves the label "START AR". -/
theorem startARClick_rejected_session_no_alert :
    (startARClick ⟨true, Except.ok true, Except.error "NotAllowedError",
        Except.ok 1, Except.ok 1⟩).alerted = false ∧
    (startARClick ⟨true, Except.ok true, Except.error "NotAllowedError",
        Except.ok 1, Except.ok 1⟩).label = "STOP AR" := by
  constructor
  · rfl
  · rfl

/-- C3 amended: in the part_000 ARButton every failed start (missing WebXR,
unsupported AR, rejected session request) shows an alert and leaves the label
"START AR".  In the final ARButton a rejected immersive-ar request falls back
to the camera without alerting; the alert, with the label left "START AR",
happens exactly when neither the XR start nor either camera request succeeds.
In both versions the label reads "STOP AR" exactly after a successful start. -/
theorem arButton_alert_labels (env : HostEnv) :
    ((startARClickV0 env).label = "STOP AR" ↔ xrStartSuccess env) ∧
    ((startARClickV0 env).alerted = true ↔ ¬xrStartSuccess env) ∧
    ((startARClick env).label = "STOP AR" ↔
      (xrStartSuccess env ∨ cameraSuccess env)) ∧
    ((startARClick env).alerted = true ↔
      (¬xrStartSuccess env ∧ ¬cameraSuccess env)) := by
  obtain ⟨hx, hs, hst, hce, hcp⟩ := env
  have hne : ("START AR" : String) ≠ "STOP AR" := by decide
  cases hx <;> rcases hs with e | b <;>
    (try cases b) <;> rcases hst with e2 | ⟨⟩ <;>
    rcases hce with e3 | s3 <;> rcases hcp with e4 | s4 <;>
    simp [startARClick, startARClickV0, cameraFallback, xrStartSuccess,
      cameraSuccess, hne]

/-- C3 witness: with WebXR absent and both camera requests rejected, the final
handler alerts and the label stays "START AR". -/
theorem arButton_alert_labels_witness :
    ((startARClickV0 ⟨false, Except.ok false, Except.ok (), Except.error "e1",
        Except.error "e2"⟩).label = "STOP AR" ↔
      xrStartSuccess ⟨false, Except.ok false, Except.ok (), Except.error "e1",
        Except.error "e2"⟩) ∧
    ((startARClickV0 ⟨false, Except.ok false, Except.ok (), Except.error "e1",
        Except.error "e2"⟩).alerted = true ↔
      ¬xrStartSuccess ⟨false, Except.ok false, Except.ok (), Except.error "e1",
        Except.error "e2"⟩) ∧
    ((startARClick ⟨false, Except.ok false, Except.ok (), Except.error "e1",
        Except.error "e2"⟩).label = "STOP AR" ↔
      (xrStartSuccess ⟨false, Except.ok false, Except.ok (), Except.error "e1",
          Except.error "e2"⟩ ∨
        cameraSuccess ⟨false, Except.ok false, Except.ok (), Except.error "e1",
          Except.error "e2"⟩)) ∧
    ((startARClick ⟨false, Except.ok false, Except.ok (), Except.error "e1",
        Except.error "e2"⟩).alerted = true ↔
      (¬xrStartSuccess ⟨false, Except.ok false, Except.ok (), Except.error "e1",
          Except.error "e2"⟩ ∧
        ¬cameraSuccess ⟨false, Except.ok false, Except.ok (), Except.error "e1",
          Except.error "e2"⟩)) :=
  arButton_alert_labels _

/-- C7: whenever the WebXR start path does not succeed, the final ARButton
requests the camera with the exact environment facing mode first; if that
request rejects it retries once with the preferred environment constraints;
and on either camera success it attaches the fixed full-screen video layer at
z-index -1 behind the scene and sets the label to "STOP AR". -/
theorem cameraFallback_spec (env : HostEnv) (h : ¬xrStartSuccess env) :
    (startARClick env).cameraCalls.head? = some exactBackCamera ∧
    (∀ e, env.cameraExact = .error e →
      (startARClick env).cameraCalls = [exactBackCamera, preferredBackCamera]) ∧
    (cameraSuccess env →
      (startARClick env).video = some ⟨-1, 100, 100, true⟩ ∧
      (startARClick env).label = "STOP AR") ∧
    exactBackCamera.facing = Facing.exactEnvironment ∧
    preferredBackCamera.facing = Facing.preferEnvironment := by
  obtain ⟨hx, hs, hst, hce, hcp⟩ := env
  cases hx <;> rcases hs with e | b <;>
    (try cases b) <;> rcases hst with e2 | ⟨⟩ <;>
    rcases hce with e3 | s3 <;> rcases hcp with e4 | s4 <;>
    simp_all [startARClick, cameraFallback, xrStartSuccess, cameraSuccess,
      exactBackCamera, preferredBackCamera]

/-- C7 witness: without WebXR, a rejected exact camera request followed by a
successful preferred retry yields both requests in order, the background video
at z-index -1 and the label "STOP AR". -/
theorem cameraFallback_spec_witness :
    (startARClick hostNoXR).cameraCalls.head? = some exactBackCamera ∧
    (∀ e, hostNoXR.cameraExact = .error e →
      (startARClick hostNoXR).cameraCalls =
        [exactBackCamera, preferredBackCamera]) ∧
    (cameraSuccess hostNoXR →
      (startARClick hostNoXR).video = some ⟨-1, 100, 100, true⟩ ∧
      (startARClick hostNoXR).label = "STOP AR") ∧
    exactBackCamera.facing = Facing.exactEnvironment ∧
    preferredBackCamera.facing = Facing.preferEnvironment :=
  cameraFallback_spec hostNoXR (by simp [xrStartSuccess, hostNoXR])

/-- The always-granting session answers honestly. -/
theorem sessionOk_wf : sessionOk.WF := by
  constructor
  · intro k sp h
    cases h
    rfl
  · intro sp src h
    cases h
    rfl

/-- C4 counterexample: with source, space and a non-empty result list whose
first hit has no valid pose in the local space, render leaves a previously
visible reticle visible, against the claimed equivalence. -/
theorem render_stale_reticle_counterexample :
    (render
        { hitTestSource := some ⟨⟨RefKind.viewer⟩⟩
          hitTestSourceRequested := true
          localReferenceSpace := some ⟨RefKind.localRef⟩
          viewerReferenceSpace := some ⟨RefKind.viewer⟩
          hitResult := none, hitPose := none
          reticleVisible := true, reticlePose := none }
        ⟨[⟨none, none⟩]⟩).reticleVisible = true ∧
    (XRFrame.mk [⟨none, none⟩]).hitTestResults ≠ [] ∧
    (XRFrame.mk [⟨none, none⟩]).hitTestResults.head? = some ⟨none, none⟩ ∧
    XRHitResult.getPose ⟨none, none⟩ RefKind.localRef = none := by
  refine ⟨rfl, ?_, rfl, rfl⟩
  simp

/-- C4 amended: in an XR-presenting render frame the reticle is shown with the
hit stash filled exactly when source, space, a first hit and its valid local
pose are all at hand; an empty result list hides the reticle and clears the
stashed hitResult and hitPose; a missing source or space hides the reticle;
but a non-empty list whose first pose is null leaves the state, the reticle
visibility included, exactly as it was. -/
theorem render_reticle_spec (g : XRGlobals) (frame : XRFrame) :
    ((g.hitTestSource = none ∨ g.localReferenceSpace = none) →
      (render g frame).reticleVisible = false) ∧
    (g.hitTestSource.isSome = true → g.localReferenceSpace.isSome = true →
      frame.hitTestResults = [] →
      (render g frame).reticleVisible = false ∧
      (render g frame).hitResult = none ∧ (render g frame).hitPose = none) ∧
    (∀ sp hit rest pose, g.hitTestSource.isSome = true →
      g.localReferenceSpace = some sp → frame.hitTestResults = hit :: rest →
      hit.getPose sp.kind = some pose →
      (render g frame).reticleVisible = true ∧
      (render g frame).hitResult = some hit ∧
      (render g frame).hitPose = some pose) ∧
    (∀ sp hit rest, g.hitTestSource.isSome = true →
      g.localReferenceSpace = some sp → frame.hitTestResults = hit :: rest →
      hit.getPose sp.kind = none → render g frame = g) := by
  refine ⟨?_, ?_, ?_, ?_⟩
  · rintro (hs | hl)
    · simp [render, hs]
    · rcases h : g.hitTestSource with _ | src <;> simp [render, h, hl]
  · intro hs hl hres
    rcases h1 : g.hitTestSource with _ | src
    · simp [h1] at hs
    · rcases h2 : g.localReferenceSpace with _ | sp
      · simp [h2] at hl
      · simp [render, h1, h2, hres]
  · intro sp hit rest pose hs hl hres hpose
    rcases h1 : g.hitTestSource with _ | src
    · simp [h1] at hs
    · simp [render, h1, hl, hres, hpose]
  · intro sp hit rest hs hl hres hpose
    rcases h1 : g.hitTestSource with _ | src
    · simp [h1] at hs
    · simp [render, h1, hl, hres, hpose]

/-- C4 witness: with everything at hand and a valid local pose, render shows
the reticle and stashes the hit and its pose. -/
theorem render_reticle_spec_witness :
    (render readyGlobals ⟨[hitLocal]⟩).reticleVisible = true ∧
    (render readyGlobals ⟨[hitLocal]⟩).hitResult = some hitLocal ∧
    (render readyGlobals ⟨[hitLocal]⟩).hitPose = some pose123 :=
  (render_reticle_spec readyGlobals ⟨[hitLocal]⟩).2.2.1 ⟨RefKind.localRef⟩
    hitLocal [] pose123 rfl rfl rfl rfl

/-- C2: at every successful session start of the final App.jsx the hit-test
source is requested for the "viewer" reference space while the stored drawing
space is the "local" one; the final render computes the first-hit pose in that
local space (falling back to the previous stash only when getPose is null);
and the earlier part_001 iteration instead fires its hit-test-source request
with the local reference space obtained at its session start. -/
theorem referenceSpace_usage (s : XRSession) (hwf : s.WF) :
    (∀ g : XRGlobals, ∀ src, (onXRSessionStart s g).hitTestSource = some src →
      src.space.kind = RefKind.viewer ∧
      ∃ lsp, (onXRSessionStart s g).localReferenceSpace = some lsp ∧
        lsp.kind = RefKind.localRef) ∧
    (∀ g : XRGlobals, ∀ sp hit rest, ∀ frame : XRFrame,
      g.hitTestSource.isSome = true → g.localReferenceSpace = some sp →
      sp.kind = RefKind.localRef → frame.hitTestResults = hit :: rest →
      (render g frame).hitPose = hit.poseLocal.or g.hitPose) ∧
    (∀ sp, (onXRSessionStartV1 s initGlobalsV1).localReferenceSpace = some sp →
      sp.kind = RefKind.localRef) ∧
    (∀ gv : XRGlobalsV1, ∀ sp, ∀ frame : XRFrame,
      gv.hitTestSourceRequested = false → gv.localReferenceSpace = some sp →
      (renderV1 gv frame).2 = some sp) := by
  obtain ⟨hwf1, hwf2⟩ := hwf
  refine ⟨?_, ?_, ?_, ?_⟩
  · intro g src hsrc
    unfold onXRSessionStart at hsrc ⊢
    rcases h1 : s.refSpace RefKind.localRef with e1 | lsp <;> simp [h1] at hsrc ⊢
    rcases h2 : s.refSpace RefKind.viewer with e2 | vsp <;> simp [h2] at hsrc ⊢
    rcases h3 : s.hitTestSrc vsp with e3 | src0 <;> simp [h3] at hsrc ⊢
    cases hsrc
    exact ⟨by rw [hwf2 vsp src h3]; exact hwf1 _ _ h2, hwf1 _ _ h1⟩
  · intro g sp hit rest frame hs hl hk hres
    rcases h1 : g.hitTestSource with _ | src
    · simp [h1] at hs
    · rcases hp : hit.poseLocal with _ | pose <;>
        simp [render, h1, hl, hres, hk, XRHitResult.getPose, hp, Option.or]
  · intro sp hsp
    unfold onXRSessionStartV1 at hsp
    rcases h1 : s.refSpace RefKind.localRef with e1 | lsp <;>
      simp [h1, initGlobalsV1] at hsp
    cases hsp
    exact hwf1 _ _ h1
  · intro gv sp frame hreq hsp
    unfold renderV1
    rcases h1 : gv.hitTestSource with _ | src <;>
      rcases hres : frame.hitTestResults with _ | ⟨hit, rest⟩ <;>
      simp [hreq, hsp, h1, hres] <;>
      cases hit.getPose sp.kind <;> rfl

/-- C2 witness: an always-granting session yields a viewer-space hit-test
source and a local drawing space at the final session start. -/
theorem referenceSpace_usage_witness :
    (HitTestSource.mk ⟨RefKind.viewer⟩).space.kind = RefKind.viewer ∧
    ∃ lsp, (onXRSessionStart sessionOk initGlobals).localReferenceSpace =
        some lsp ∧ lsp.kind = RefKind.localRef :=
  (referenceSpace_usage sessionOk sessionOk_wf).1 initGlobals
    ⟨⟨RefKind.viewer⟩⟩ rfl

/-- A duplicate-free list whose elements are all equal holds at most one
element. -/
theorem length_le_one_of_nodup_of_all_eq {α : Type} {l : List α} {c : α}
    (hn : l.Nodup) (h : ∀ a ∈ l, a = c) : l.length ≤ 1 := by
  match l with
  | [] => simp
  | [a] => simp
  | a :: b :: t =>
    rw [List.nodup_cons] at hn
    refine absurd ?_ hn.1
    rw [h a (by simp), h b (by simp)]
    exact List.mem_cons_self c t

/-- A scene satisfying the tracking invariant holds no model node beyond the
tracked one. -/
theorem no_model_of_untracked {st : SceneState}
    (htrack : ∀ i, Obj.model i ∈ st.scene → ∃ m, st.model = some m ∧ m.id = i)
    (hm : st.model = none) : ∀ i, Obj.model i ∉ st.scene := by
  intro i hi
  rcases htrack i hi with ⟨m, hm', _⟩
  rw [hm] at hm'
  cases hm'

/-- Model nodes are exactly what isModelObj accepts. -/
theorem isModelObj_eq_true_iff (a : Obj) :
    isModelObj a = true ↔ ∃ i, a = Obj.model i := by
  cases a <;> simp [isModelObj]

/-- C9: the scene holds at most one user-loaded model at any time: a placeModel
load removes the tracked previous model before adding the fresh one, so under
the tracking invariant (and freshness of the loader output) placements replace
rather than accumulate, the invariant is preserved, and afterwards at most one
model node is in the scene. -/
theorem placeModel_single_model (url : Option String) (st : SceneState)
    (g : Nat) (p : Vec3) (o : Option Quat) (hinv : SceneInv st)
    (hfresh : Obj.model g ∉ st.scene) :
    SceneInv (placeModel url st g p o) ∧
    modelCount (placeModel url st g p o).scene ≤ 1 := by
  obtain ⟨hnd, htrack⟩ := hinv
  have hcount : modelCount st.scene ≤ 1 := by
    rcases hm : st.model with _ | m
    · have hno := no_model_of_untracked htrack hm
      have : st.scene.filter isModelObj = [] := by
        refine List.filter_eq_nil_iff.mpr fun a ha hpa => ?_
        rcases (isModelObj_eq_true_iff a).mp hpa with ⟨i, rfl⟩
        exact hno i ha
      simp [modelCount, this]
    · refine length_le_one_of_nodup_of_all_eq (c := Obj.model m.id)
        (hnd.filter _) fun a ha => ?_
      rw [List.mem_filter] at ha
      rcases (isModelObj_eq_true_iff a).mp ha.2 with ⟨i, rfl⟩
      rcases htrack i ha.1 with ⟨m', hm', hid⟩
      rw [hm] at hm'
      cases hm'
      rw [hid]
  rcases url with _ | u
  · exact ⟨⟨hnd, htrack⟩, hcount⟩
  · have hsub : ∀ i, Obj.model i ∉
        (match st.model with
          | some m => st.scene.erase (Obj.model m.id)
          | none => st.scene) := by
      rcases hm : st.model with _ | m
      · exact no_model_of_untracked htrack hm
      · intro i hi
        have := (List.Nodup.mem_erase_iff hnd).mp hi
        rcases htrack i this.2 with ⟨m', hm', hid⟩
        rw [hm] at hm'
        cases hm'
        exact this.1 (by rw [hid])
    have herased : ∀ a ∈
        (match st.model with
          | some m => st.scene.erase (Obj.model m.id)
          | none => st.scene), a ∈ st.scene := by
      rcases st.model with _ | m
      · exact fun a ha => ha
      · exact fun a ha => List.mem_of_mem_erase ha
    have hnd1 :
        (match st.model with
          | some m => st.scene.erase (Obj.model m.id)
          | none => st.scene).Nodup := by
      rcases st.model with _ | m
      · exact hnd
      · exact hnd.erase _
    constructor
    · constructor
      · simp only [placeModel, Option.isSome_some, if_true]
        refine hnd1.append (by simp) ?_
        intro a ha hb
        simp only [List.mem_singleton] at hb
        subst hb
        exact hfresh (herased _ ha)
      · simp only [placeModel, Option.isSome_some, if_true]
        intro i hi
        rw [List.mem_append] at hi
        rcases hi with hi | hi
        · exact absurd hi (hsub i)
        · simp only [List.mem_singleton, Obj.model.injEq] at hi
          exact ⟨_, rfl, hi.symm⟩
    · simp only [placeModel, Option.isSome_some, if_true, modelCount]
      rw [List.filter_append]
      have : (match st.model with
          | some m => st.scene.erase (Obj.model m.id)
          | none => st.scene).filter isModelObj = [] := by
        refine List.filter_eq_nil_iff.mpr fun a ha hpa => ?_
        rcases (isModelObj_eq_true_iff a).mp hpa with ⟨i, rfl⟩
        exact hsub i ha
      rw [this]
      simp [isModelObj]

/-- C9 witness: replacing the tracked model of a two-node scene with a fresh
load keeps the invariant and at most one model. -/
theorem placeModel_single_model_witness :
    SceneInv (placeModel (some "blob:model-url") trackedScene 6 ⟨1, 2, 3⟩ none) ∧
    modelCount (placeModel (some "blob:model-url") trackedScene 6
        ⟨1, 2, 3⟩ none).scene ≤ 1 :=
  placeModel_single_model (some "blob:model-url") trackedScene 6 ⟨1, 2, 3⟩ none
    ⟨by decide, fun i hi => by
      simp only [trackedScene, List.mem_cons, List.not_mem_nil, or_false] at hi
      rcases hi with hi | hi
      · cases hi
      · cases hi
        exact ⟨_, rfl, rfl⟩⟩
    (by decide)

/-- mathSqrt is exact on squares, up to the absolute value. -/
theorem mathSqrt_mul_self (a : ℚ) : mathSqrt (a * a) = |a| :=
  Rat.sqrt_eq a

/-- mathSqrt at the constant 1. -/
theorem mathSqrt_eq_one {a : ℚ} (ha : a = 1) : mathSqrt a = 1 := by
  subst ha
  rw [show (1 : ℚ) = 1 * 1 from by norm_num, mathSqrt_mul_self]
  norm_num

/-- The determinant of a rigid-transform matrix with unit orientation is 1. -/
theorem composeRigid_det (p : Vec3) (x y z w : ℚ)
    (h : x ^ 2 + y ^ 2 + z ^ 2 + w ^ 2 = 1) :
    (composeRigid p ⟨x, y, z, w⟩).determinant = 1 := by
  simp only [Mat4.determinant, composeRigid]
  linear_combination (4 * (x ^ 2 + y ^ 2 + z ^ 2)) * h

/-- The signed x scale of a rigid-transform matrix with unit orientation is
1. -/
theorem composeRigid_scaleSignedX (p : Vec3) (x y z w : ℚ)
    (h : x ^ 2 + y ^ 2 + z ^ 2 + w ^ 2 = 1) :
    (composeRigid p ⟨x, y, z, w⟩).scaleSignedX = 1 := by
  unfold Mat4.scaleSignedX vecLength3
  rw [composeRigid_det p x y z w h, if_neg (by norm_num : ¬((1 : ℚ) < 0))]
  refine mathSqrt_eq_one ?_
  simp only [composeRigid]
  linear_combination (4 * (y ^ 2 + z ^ 2)) * h

/-- The y scale of a rigid-transform matrix with unit orientation is 1. -/
theorem composeRigid_scaleY (p : Vec3) (x y z w : ℚ)
    (h : x ^ 2 + y ^ 2 + z ^ 2 + w ^ 2 = 1) :
    (composeRigid p ⟨x, y, z, w⟩).scaleY = 1 := by
  unfold Mat4.scaleY vecLength3
  refine mathSqrt_eq_one ?_
  simp only [composeRigid]
  linear_combination (4 * (x ^ 2 + z ^ 2)) * h

/-- The z scale of a rigid-transform matrix with unit orientation is 1. -/
theorem composeRigid_scaleZ (p : Vec3) (x y z w : ℚ)
    (h : x ^ 2 + y ^ 2 + z ^ 2 + w ^ 2 = 1) :
    (composeRigid p ⟨x, y, z, w⟩).scaleZ = 1 := by
  unfold Mat4.scaleZ vecLength3
  refine mathSqrt_eq_one ?_
  simp only [composeRigid]
  linear_combination (4 * (x ^ 2 + y ^ 2)) * h

/-- setFromRotationMatrix on the rotation block of a rigid transform with unit
orientation recovers the orientation up to sign: whichever branch runs, the
result is the original quaternion or its negation. -/
theorem setFromRotationMatrix_rigid (x y z w : ℚ)
    (h : x ^ 2 + y ^ 2 + z ^ 2 + w ^ 2 = 1) :
    setFromRotationMatrix
        (1 - (y * (y + y) + z * (z + z))) (x * (y + y) - w * (z + z))
        (x * (z + z) + w * (y + y)) (x * (y + y) + w * (z + z))
        (1 - (x * (x + x) + z * (z + z))) (y * (z + z) - w * (x + x))
        (x * (z + z) - w * (y + y)) (y * (z + z) + w * (x + x))
        (1 - (x * (x + x) + y * (y + y))) = ⟨x, y, z, w⟩ ∨
    setFromRotationMatrix
        (1 - (y * (y + y) + z * (z + z))) (x * (y + y) - w * (z + z))
        (x * (z + z) + w * (y + y)) (x * (y + y) + w * (z + z))
        (1 - (x * (x + x) + z * (z + z))) (y * (z + z) - w * (x + x))
        (x * (z + z) - w * (y + y)) (y * (z + z) + w * (x + x))
        (1 - (x * (x + x) + y * (y + y))) = ⟨-x, -y, -z, -w⟩ := by
  unfold setFromRotationMatrix
  split_ifs with h1 h2 h3
  · -- trace branch: the pivot is w
    rw [show (1 - (y * (y + y) + z * (z + z)) + (1 - (x * (x + x) + z * (z + z))) +
        (1 - (x * (x + x) + y * (y + y))) + 1 : ℚ) = (2 * w) * (2 * w) from by
      linear_combination (-4) * h]
    rw [mathSqrt_mul_self]
    have hw : w ≠ 0 := by
      intro h0
      rw [h0] at h
      nlinarith [sq_nonneg x, sq_nonneg y, sq_nonneg z]
    rcases lt_trichotomy w 0 with hneg | h0 | hpos
    · right
      rw [abs_of_neg (by linarith : (2 : ℚ) * w < 0)]
      simp only [Quat.mk.injEq]
      refine ⟨?_, ?_, ?_, ?_⟩ <;> field_simp <;> ring
    · exact absurd h0 hw
    · left
      rw [abs_of_pos (by linarith : (0 : ℚ) < 2 * w)]
      simp only [Quat.mk.injEq]
      refine ⟨?_, ?_, ?_, ?_⟩ <;> field_simp <;> ring
  · -- m11 branch: the pivot is x
    obtain ⟨h21, h22⟩ := h2
    rw [show (1 + (1 - (y * (y + y) + z * (z + z))) -
        (1 - (x * (x + x) + z * (z + z))) -
        (1 - (x * (x + x) + y * (y + y))) : ℚ) = (2 * x) * (2 * x) from by ring]
    rw [mathSqrt_mul_self]
    have hx : x ≠ 0 := by
      intro h0
      rw [h0] at h21
      nlinarith [sq_nonneg y]
    rcases lt_trichotomy x 0 with hneg | h0 | hpos
    · right
      rw [abs_of_neg (by linarith : (2 : ℚ) * x < 0)]
      simp only [Quat.mk.injEq]
      refine ⟨?_, ?_, ?_, ?_⟩ <;> field_simp <;> ring
    · exact absurd h0 hx
    · left
      rw [abs_of_pos (by linarith : (0 : ℚ) < 2 * x)]
      simp only [Quat.mk.injEq]
      refine ⟨?_, ?_, ?_, ?_⟩ <;> field_simp <;> ring
  · -- m22 branch: the pivot is y
    rw [show (1 + (1 - (x * (x + x) + z * (z + z))) -
        (1 - (y * (y + y) + z * (z + z))) -
        (1 - (x * (x + x) + y * (y + y))) : ℚ) = (2 * y) * (2 * y) from by ring]
    rw [mathSqrt_mul_self]
    have hy : y ≠ 0 := by
      intro h0
      rw [h0] at h3
      nlinarith [sq_nonneg z]
    rcases lt_trichotomy y 0 with hneg | h0 | hpos
    · right
      rw [abs_of_neg (by linarith : (2 : ℚ) * y < 0)]
      simp only [Quat.mk.injEq]
      refine ⟨?_, ?_, ?_, ?_⟩ <;> field_simp <;> ring
    · exact absurd h0 hy
    · left
      rw [abs_of_pos (by linarith : (0 : ℚ) < 2 * y)]
      simp only [Quat.mk.injEq]
      refine ⟨?_, ?_, ?_, ?_⟩ <;> field_simp <;> ring
  · -- m33 branch: the pivot is z
    rw [show (1 + (1 - (x * (x + x) + y * (y + y))) -
        (1 - (y * (y + y) + z * (z + z))) -
        (1 - (x * (x + x) + z * (z + z))) : ℚ) = (2 * z) * (2 * z) from by ring]
    rw [mathSqrt_mul_self]
    have hz : z ≠ 0 := by
      intro h0
      rw [h0] at h1 h2 h3
      push_neg at h3
      have hy2 : y ^ 2 ≤ 0 := by nlinarith
      have hy : y = 0 := by
        have := le_antisymm hy2 (sq_nonneg y)
        exact pow_eq_zero_iff (by norm_num : (2 : ℕ) ≠ 0) |>.mp this
      rw [hy] at h1 h2
      push_neg at h2
      have hgt : (1 : ℚ) - (0 * (0 + 0) + 0 * (0 + 0)) >
          1 - (x * (x + x) + 0 * (0 + 0)) := by nlinarith
      have hle := h2 hgt
      nlinarith [sq_nonneg x]
    rcases lt_trichotomy z 0 with hneg | h0 | hpos
    · right
      rw [abs_of_neg (by linarith : (2 : ℚ) * z < 0)]
      simp only [Quat.mk.injEq]
      refine ⟨?_, ?_, ?_, ?_⟩ <;> field_simp <;> ring
    · exact absurd h0 hz
    · left
      rw [abs_of_pos (by linarith : (0 : ℚ) < 2 * z)]
      simp only [Quat.mk.injEq]
      refine ⟨?_, ?_, ?_, ?_⟩ <;> field_simp <;> ring

/-- Matrix4.decompose of a rigid-transform matrix with unit orientation: the
scales are 1, the position is the translation, and the quaternion is
setFromRotationMatrix of the rotation block. -/
theorem decompose_composeRigid (p : Vec3) (x y z w : ℚ)
    (h : x ^ 2 + y ^ 2 + z ^ 2 + w ^ 2 = 1) :
    (composeRigid p ⟨x, y, z, w⟩).decompose =
      (p,
       setFromRotationMatrix
         (1 - (y * (y + y) + z * (z + z))) (x * (y + y) - w * (z + z))
         (x * (z + z) + w * (y + y)) (x * (y + y) + w * (z + z))
         (1 - (x * (x + x) + z * (z + z))) (y * (z + z) - w * (x + x))
         (x * (z + z) - w * (y + y)) (y * (z + z) + w * (x + x))
         (1 - (x * (x + x) + y * (y + y))),
       ⟨1, 1, 1⟩) := by
  unfold Mat4.decompose
  rw [composeRigid_scaleSignedX p x y z w h, composeRigid_scaleY p x y z w h,
    composeRigid_scaleZ p x y z w h]
  simp only [div_one, mul_one, composeRigid]

/-- C6 counterexample: the hit pose at the origin with orientation
(0, 0, 0, -1) (a unit quaternion, the identity rotation with negative sign) is
decomposed by part_000 into the quaternion (0, 0, 0, 1), which differs from
the transform.orientation read directly in the final App.jsx. -/
theorem onSelect_decompose_counterexample :
    isUnitQuat ⟨0, 0, 0, -1⟩ ∧
    onSelectV0Quaternion ⟨⟨0, 0, 0⟩, ⟨0, 0, 0, -1⟩⟩ = ⟨0, 0, 0, 1⟩ ∧
    onSelectOrientation ⟨⟨0, 0, 0⟩, ⟨0, 0, 0, -1⟩⟩ = ⟨0, 0, 0, -1⟩ ∧
    (Quat.mk 0 0 0 1 ≠ ⟨0, 0, 0, -1⟩) := by
  refine ⟨by norm_num [isUnitQuat], ?_, rfl, ?_⟩
  · have h := decompose_composeRigid ⟨0, 0, 0⟩ 0 0 0 (-1) (by norm_num)
    unfold onSelectV0Quaternion
    rw [show (XRPose.mk ⟨0, 0, 0⟩ ⟨0, 0, 0, -1⟩).position = ⟨0, 0, 0⟩ from rfl,
      show (XRPose.mk ⟨0, 0, 0⟩ ⟨0, 0, 0, -1⟩).orientation = ⟨0, 0, 0, -1⟩ from rfl,
      h]
    norm_num [setFromRotationMatrix, mathSqrt_eq_one]
    rw [show (4 : ℚ) = 2 * 2 from by norm_num, mathSqrt_mul_self]
    norm_num
  · simp only [ne_eq, Quat.mk.injEq]
    norm_num

/-- C6 amended: for every rigid hit pose (unit orientation) the position
part_000 obtains by building the 4x4 matrix from the pose transform and
decomposing it equals the position the final App.jsx reads directly from
transform.position; the decomposed quaternion, however, equals the directly
read transform.orientation only up to sign: it is the orientation or its
negation (both describe the same rotation), and the counterexample shows the
negated case occurs. -/
theorem onSelect_decompose_refines (pose : XRPose)
    (h : isUnitQuat pose.orientation) :
    onSelectV0Position pose = onSelectPosition pose ∧
    (onSelectV0Quaternion pose = onSelectOrientation pose ∨
      onSelectV0Quaternion pose =
        ⟨-pose.orientation.x, -pose.orientation.y, -pose.orientation.z,
          -pose.orientation.w⟩) := by
  obtain ⟨p, q⟩ := pose
  obtain ⟨x, y, z, w⟩ := q
  simp only [isUnitQuat] at h
  unfold onSelectV0Position onSelectV0Quaternion onSelectPosition
    onSelectOrientation
  rw [show (XRPose.mk p ⟨x, y, z, w⟩).position = p from rfl,
    show (XRPose.mk p ⟨x, y, z, w⟩).orientation = ⟨x, y, z, w⟩ from rfl]
  rw [decompose_composeRigid p x y z w h]
  refine ⟨rfl, ?_⟩
  rcases setFromRotationMatrix_rigid x y z w h with h' | h'
  · exact Or.inl h'
  · exact Or.inr h'

/-- C6 witness: at the pose (1, 2, 3) with the identity orientation the
decomposed position is the read position and the decomposed quaternion
matches up to sign. -/
theorem onSelect_decompose_refines_witness :
    onSelectV0Position pose123 = onSelectPosition pose123 ∧
    (onSelectV0Quaternion pose123 = onSelectOrientation pose123 ∨
      onSelectV0Quaternion pose123 =
        ⟨-pose123.orientation.x, -pose123.orientation.y,
          -pose123.orientation.z, -pose123.orientation.w⟩) :=
  onSelect_decompose_refines pose123
    (by norm_num [isUnitQuat, pose123, identQuat])

end WebAR
